import Mathlib

/-!
Verification of the fitness-tracker module (homework.py).

The module computes distance, mean speed and spent calories for three
workout kinds (running, sports walking, swimming), renders a summary
message, and dispatches raw sensor packages to the right variant.

Embedding choices:
* Python floats are modelled by exact rationals (ℚ); the reference
  scenarios in the documentation are stated with exact decimal values.
* A Python class instance is a constructor of the inductive `Workout`;
  the plain base class `Training` is the `base` constructor.
* Fallible operations (division by a runtime value, dispatch, the
  unimplemented base calorie method, construction with a wrong argument
  count) return `Except Err _`.
* Python `//` on non-negative floats is floor division, modelled by
  `Int.floor` of the exact quotient.
-/

namespace Homework

/-- Runtime failures of the module: `ValueError` from the dispatcher,
`TypeError` from calling a constructor with the wrong argument count,
`NotImplementedError` from the base calorie method (carrying the class
name used in its message), and `ZeroDivisionError`. -/
inductive Err
  | invalidInput (msg : String)
  | arityMismatch
  | notImplemented (cls : String)
  | divByZero
deriving DecidableEq, Repr

/-- A raw value in a sensor package: numeric or not (e.g. text). -/
inductive Value
  | num (q : ℚ)
  | text (s : String)
deriving DecidableEq, Repr

/-- `isinstance(v, numbers.Number)`. -/
def Value.isNumber : Value → Bool
  | .num _ => true
  | .text _ => false

/-- The numeric payload of a value (only used once all values passed the
`isNumber` check). -/
def Value.toNum : Value → ℚ
  | .num q => q
  | .text _ => 0

/-- Checked division: Python raises `ZeroDivisionError` on a zero
divisor. -/
def qdiv (a b : ℚ) : Except Err ℚ :=
  if b = 0 then .error .divByZero else .ok (a / b)

/-- Checked floor division, Python `//`. -/
def qfloordiv (a b : ℚ) : Except Err ℚ :=
  if b = 0 then .error .divByZero else .ok (⌊a / b⌋ : ℚ)

/-- The class hierarchy: plain `Training` and its three subclasses,
with their constructor fields. -/
inductive Workout
  | base (action duration weight : ℚ)
  | running (action duration weight : ℚ)
  | sportsWalking (action duration weight height : ℚ)
  | swimming (action duration weight length_pool count_pool : ℚ)
deriving DecidableEq, Repr

namespace Workout

/-- Field `self.action` (set by the shared base constructor). -/
def action : Workout → ℚ
  | .base a _ _ => a
  | .running a _ _ => a
  | .sportsWalking a _ _ _ => a
  | .swimming a _ _ _ _ => a

/-- Field `self.duration` (set by the shared base constructor). -/
def duration : Workout → ℚ
  | .base _ d _ => d
  | .running _ d _ => d
  | .sportsWalking _ d _ _ => d
  | .swimming _ d _ _ _ => d

/-- Field `self.weight` (set by the shared base constructor). -/
def weight : Workout → ℚ
  | .base _ _ w => w
  | .running _ _ w => w
  | .sportsWalking _ _ w _ => w
  | .swimming _ _ w _ _ => w

/-- Class attribute `LEN_STEP`: 0.65 on `Training` (inherited by
`Running` and `SportsWalking`), overridden to 1.38 on `Swimming`. -/
def LEN_STEP : Workout → ℚ
  | .swimming _ _ _ _ _ => 1.38
  | _ => 0.65

/-- Class attribute `M_IN_KM = 1000`. -/
def M_IN_KM : ℚ := 1000

/-- `self.__class__.__name__`. -/
def className : Workout → String
  | .base _ _ _ => "Training"
  | .running _ _ _ => "Running"
  | .sportsWalking _ _ _ _ => "SportsWalking"
  | .swimming _ _ _ _ _ => "Swimming"

/-- `Training.get_distance`: `action * LEN_STEP / M_IN_KM`.  The divisor
is the constant 1000, so this method is total; it is inherited unchanged
by all three subclasses. -/
def get_distance (w : Workout) : ℚ :=
  w.action * w.LEN_STEP / M_IN_KM

/-- `get_mean_speed`: the base method is `get_distance() / duration`;
`Swimming` overrides it with `length_pool * count_pool / M_IN_KM /
duration`. -/
def get_mean_speed (w : Workout) : Except Err ℚ :=
  match w with
  | .swimming _ d _ lp cp => qdiv (lp * cp / M_IN_KM) d
  | _ => qdiv w.get_distance w.duration

/-- `get_spent_calories`: the base method raises `NotImplementedError`
with a message naming the class; each subclass overrides it with its
own formula. -/
def get_spent_calories : Workout → Except Err ℚ
  | .base _ _ _ => .error (.notImplemented "Training")
  | .running a d wt => do
      let v ← (Workout.running a d wt).get_mean_speed
      .ok ((18 * v - 20) * wt / M_IN_KM * (d * 60))
  | .sportsWalking a d wt h => do
      let v ← (Workout.sportsWalking a d wt h).get_mean_speed
      let f ← qfloordiv (v ^ 2) h
      .ok ((0.035 * wt + f * 0.029 * wt) * (d * 60))
  | .swimming a d wt lp cp => do
      let v ← (Workout.swimming a d wt lp cp).get_mean_speed
      .ok ((v + 1.1) * 2 * wt)

end Workout

/-- The dataclass `InfoMessage`. -/
structure InfoMessage where
  training_type : String
  duration : ℚ
  distance : ℚ
  speed : ℚ
  calories : ℚ
deriving DecidableEq, Repr

/-- The three decimal digits of `m % 1000`, zero padded. -/
def digits3 (m : ℕ) : String :=
  String.mk [Nat.digitChar (m / 100 % 10), Nat.digitChar (m / 10 % 10),
             Nat.digitChar (m % 10)]

/-- Python `f"{x:.3f}"`: the value rounded to the nearest thousandth,
rendered with exactly three digits after the decimal point. -/
def format3 (x : ℚ) : String :=
  let n : ℤ := round (x * 1000)
  (if n < 0 then "-" else "") ++ toString (n.natAbs / 1000) ++ "." ++
    digits3 (n.natAbs % 1000)

/-- `InfoMessage.get_message`: the fixed f-string of the source. -/
def InfoMessage.get_message (m : InfoMessage) : String :=
  "Тип тренировки: " ++ m.training_type ++
  "; Длительность: " ++ format3 m.duration ++
  " ч.; Дистанция: " ++ format3 m.distance ++
  " км; Ср. скорость: " ++ format3 m.speed ++
  " км/ч; Потрачено ккал: " ++ format3 m.calories ++ "."

/-- `Training.show_training_info`: builds the `InfoMessage` from the
class name, the duration field and the three derived metrics (Python
evaluates the arguments left to right, so a speed error surfaces before
a calorie error). -/
def Workout.show_training_info (w : Workout) : Except Err InfoMessage := do
  let speed ← w.get_mean_speed
  let cal ← w.get_spent_calories
  .ok ⟨w.className, w.duration, w.get_distance, speed, cal⟩

/-- The keys of the dispatch table `obj_code_data`. -/
def tagTable : List String := ["SWM", "RUN", "WLK"]

/-- Calling the constructor looked up in `obj_code_data` with the
unpacked value list: positional assignment when the count matches the
constructor's arity, `TypeError` otherwise. -/
def construct (tag : String) (vals : List ℚ) : Except Err Workout :=
  if tag = "SWM" then
    match vals with
    | [a, d, wt, lp, cp] => .ok (.swimming a d wt lp cp)
    | _ => .error .arityMismatch
  else if tag = "RUN" then
    match vals with
    | [a, d, wt] => .ok (.running a d wt)
    | _ => .error .arityMismatch
  else if tag = "WLK" then
    match vals with
    | [a, d, wt, h] => .ok (.sportsWalking a d wt h)
    | _ => .error .arityMismatch
  else .error .arityMismatch

/-- `read_package`: validates that the tag is a key of the dispatch
table and that every value is numeric, then constructs the variant;
otherwise raises `ValueError` with the source's message. -/
def read_package (workout_type : String) (data : List Value) :
    Except Err Workout :=
  if workout_type ∈ tagTable ∧ data.all Value.isNumber then
    construct workout_type (data.map Value.toNum)
  else
    .error (.invalidInput "Полученый тип или данные неккоректны!")

/-- The declared arity of the variant constructor behind each tag. -/
def variantArity (tag : String) : ℕ :=
  if tag = "SWM" then 5 else if tag = "WLK" then 4 else 3

/-- `True` exactly on instances of the three concrete subclasses. -/
def Workout.isVariant : Workout → Bool
  | .base _ _ _ => false
  | _ => true

/-- `Err.notImplemented` detector. -/
def Err.isNotImpl : Err → Bool
  | .notImplemented _ => true
  | _ => false

/-- Whether a computation ended in `NotImplementedError`. -/
def raisesNotImpl {α : Type} : Except Err α → Bool
  | .error e => e.isNotImpl
  | .ok _ => false

/-- Whether a computation succeeded. -/
def isOk {α : Type} : Except Err α → Bool
  | .ok _ => true
  | .error _ => false

/-- The extra definedness condition of `SportsWalking.get_spent_calories`:
its floor division is by the `height` field. -/
def Workout.heightNonzero : Workout → Prop
  | .sportsWalking _ _ _ h => h ≠ 0
  | _ => True

instance exceptDecEq {ε α : Type} [DecidableEq ε] [DecidableEq α] :
    DecidableEq (Except ε α)
  | .error e, .error f =>
    if h : e = f then .isTrue (by rw [h]) else .isFalse (by simp [h])
  | .error _, .ok _ => .isFalse (by simp)
  | .ok _, .error _ => .isFalse (by simp)
  | .ok a, .ok b =>
    if h : a = b then .isTrue (by rw [h]) else .isFalse (by simp [h])

/-! ### Helper lemmas -/

@[simp] lemma ok_bind {ε α β : Type} (a : α) (f : α → Except ε β) :
    (Except.ok a : Except ε α) >>= f = f a := rfl

@[simp] lemma error_bind {ε α β : Type} (e : ε) (f : α → Except ε β) :
    (Except.error e : Except ε α) >>= f = .error e := rfl

lemma all_isNumber_map_num (vs : List ℚ) :
    (vs.map Value.num).all Value.isNumber = true := by
  induction vs with
  | nil => rfl
  | cons v t ih => simp [Value.isNumber, ih]

lemma map_toNum_map_num (vs : List ℚ) :
    (vs.map Value.num).map Value.toNum = vs := by
  induction vs with
  | nil => rfl
  | cons v t ih => simp [Value.toNum, ih]

lemma read_package_numeric (tag : String) (vals : List ℚ)
    (htag : tag ∈ tagTable) :
    read_package tag (vals.map Value.num) = construct tag vals := by
  simp only [read_package]
  rw [if_pos ⟨htag, all_isNumber_map_num vals⟩, map_toNum_map_num]

lemma construct_not_invalid (tag : String) (vals : List ℚ) (msg : String) :
    construct tag vals ≠ .error (.invalidInput msg) := by
  intro h
  unfold construct at h
  split_ifs at h <;> first | (split at h <;> simp_all) | simp_all

lemma construct_ok_swm (vals : List ℚ) (w : Workout)
    (h : construct "SWM" vals = .ok w) :
    ∃ a d wt lp cp, w = .swimming a d wt lp cp := by
  unfold construct at h
  rw [if_pos rfl] at h
  split at h
  · exact ⟨_, _, _, _, _, by injection h with h; exact h.symm⟩
  · simp at h

lemma construct_ok_run (vals : List ℚ) (w : Workout)
    (h : construct "RUN" vals = .ok w) :
    ∃ a d wt, w = .running a d wt := by
  unfold construct at h
  rw [if_neg (by decide), if_pos rfl] at h
  split at h
  · exact ⟨_, _, _, by injection h with h; exact h.symm⟩
  · simp at h

lemma construct_ok_wlk (vals : List ℚ) (w : Workout)
    (h : construct "WLK" vals = .ok w) :
    ∃ a d wt ht, w = .sportsWalking a d wt ht := by
  unfold construct at h
  rw [if_neg (by decide), if_neg (by decide), if_pos rfl] at h
  split at h
  · exact ⟨_, _, _, _, by injection h with h; exact h.symm⟩
  · simp at h

lemma construct_swm_arity (vals : List ℚ) (hlen : vals.length ≠ 5) :
    construct "SWM" vals = .error .arityMismatch := by
  unfold construct
  rw [if_pos rfl]
  rcases vals with _ | ⟨a, _ | ⟨b, _ | ⟨c, _ | ⟨e, _ | ⟨f, _ | ⟨g, t⟩⟩⟩⟩⟩⟩ <;>
    simp_all

lemma construct_run_arity (vals : List ℚ) (hlen : vals.length ≠ 3) :
    construct "RUN" vals = .error .arityMismatch := by
  unfold construct
  rw [if_neg (by decide), if_pos rfl]
  rcases vals with _ | ⟨a, _ | ⟨b, _ | ⟨c, _ | ⟨e, t⟩⟩⟩⟩ <;> simp_all

lemma construct_wlk_arity (vals : List ℚ) (hlen : vals.length ≠ 4) :
    construct "WLK" vals = .error .arityMismatch := by
  unfold construct
  rw [if_neg (by decide), if_neg (by decide), if_pos rfl]
  rcases vals with _ | ⟨a, _ | ⟨b, _ | ⟨c, _ | ⟨e, _ | ⟨f, t⟩⟩⟩⟩⟩ <;> simp_all

lemma construct_ok_isVariant (tag : String) (vals : List ℚ) (w : Workout)
    (h : construct tag vals = .ok w) : w.isVariant = true := by
  unfold construct at h
  split_ifs at h <;>
    first
      | (split at h <;> first | (injection h with h; subst h; rfl) | simp_all)
      | simp_all

lemma read_package_ok_construct (tag : String) (data : List Value)
    (w : Workout) (h : read_package tag data = .ok w) :
    construct tag (data.map Value.toNum) = .ok w := by
  unfold read_package at h
  split_ifs at h
  exact h

lemma isVariant_no_notImpl (w : Workout) (hv : w.isVariant = true) :
    raisesNotImpl w.get_spent_calories = false ∧
    raisesNotImpl w.show_training_info = false := by
  cases w with
  | base a d wt => simp [Workout.isVariant] at hv
  | running a d wt =>
      by_cases hd : d = 0 <;>
        simp [Workout.get_spent_calories, Workout.show_training_info,
              Workout.get_mean_speed, qdiv, hd, raisesNotImpl, Err.isNotImpl,
              Workout.get_distance, Workout.duration]
  | sportsWalking a d wt h =>
      by_cases hd : d = 0 <;> by_cases hh : h = 0 <;>
        simp [Workout.get_spent_calories, Workout.show_training_info,
              Workout.get_mean_speed, qdiv, qfloordiv, hd, hh, raisesNotImpl,
              Err.isNotImpl, Workout.get_distance, Workout.duration]
  | swimming a d wt lp cp =>
      by_cases hd : d = 0 <;>
        simp [Workout.get_spent_calories, Workout.show_training_info,
              Workout.get_mean_speed, qdiv, hd, raisesNotImpl, Err.isNotImpl,
              Workout.get_distance, Workout.duration]

/-! ### Evaluation of the three demo packages -/

lemma run_demo_distance : (Workout.running 15000 1 75).get_distance = 9.75 := by
  norm_num [Workout.get_distance, Workout.action, Workout.LEN_STEP,
            Workout.M_IN_KM]

lemma run_demo_speed : (Workout.running 15000 1 75).get_mean_speed = .ok 9.75 := by
  norm_num [Workout.get_mean_speed, qdiv, Workout.get_distance, Workout.action,
            Workout.LEN_STEP, Workout.M_IN_KM, Workout.duration]

lemma run_demo_calories :
    (Workout.running 15000 1 75).get_spent_calories = .ok 699.75 := by
  norm_num [Workout.get_spent_calories, Workout.get_mean_speed, qdiv,
            Workout.get_distance, Workout.action, Workout.LEN_STEP,
            Workout.M_IN_KM, Workout.duration]

lemma run_slow_calories :
    (Workout.running 100 1 75).get_spent_calories = .ok (-84.735) := by
  norm_num [Workout.get_spent_calories, Workout.get_mean_speed, qdiv,
            Workout.get_distance, Workout.action, Workout.LEN_STEP,
            Workout.M_IN_KM, Workout.duration]

lemma wlk_demo_distance :
    (Workout.sportsWalking 9000 1 75 180).get_distance = 5.85 := by
  norm_num [Workout.get_distance, Workout.action, Workout.LEN_STEP,
            Workout.M_IN_KM]

lemma wlk_demo_speed :
    (Workout.sportsWalking 9000 1 75 180).get_mean_speed = .ok 5.85 := by
  norm_num [Workout.get_mean_speed, qdiv, Workout.get_distance, Workout.action,
            Workout.LEN_STEP, Workout.M_IN_KM, Workout.duration]

lemma wlk_demo_floor : (⌊((5.85 : ℚ)) ^ 2 / 180⌋ : ℤ) = 0 := by
  rw [Int.floor_eq_zero_iff, Set.mem_Ico]
  norm_num

lemma wlk_demo_calories :
    (Workout.sportsWalking 9000 1 75 180).get_spent_calories = .ok 157.5 := by
  simp only [Workout.get_spent_calories]
  rw [wlk_demo_speed]
  simp only [ok_bind]
  unfold qfloordiv
  rw [if_neg (by norm_num : ¬(180 : ℚ) = 0), wlk_demo_floor]
  simp only [ok_bind]
  norm_num

lemma swm_demo_distance :
    (Workout.swimming 720 1 80 25 40).get_distance = 0.9936 := by
  norm_num [Workout.get_distance, Workout.action, Workout.LEN_STEP,
            Workout.M_IN_KM]

lemma swm_demo_speed :
    (Workout.swimming 720 1 80 25 40).get_mean_speed = .ok 1 := by
  norm_num [Workout.get_mean_speed, qdiv, Workout.M_IN_KM]

lemma swm_demo_calories :
    (Workout.swimming 720 1 80 25 40).get_spent_calories = .ok 336 := by
  norm_num [Workout.get_spent_calories, Workout.get_mean_speed, qdiv,
            Workout.M_IN_KM]

lemma swm_demo_info :
    (Workout.swimming 720 1 80 25 40).show_training_info =
      .ok ⟨"Swimming", 1, 0.9936, 1, 336⟩ := by
  simp only [Workout.show_training_info]
  rw [swm_demo_speed]
  simp only [ok_bind]
  rw [swm_demo_calories]
  simp only [ok_bind]
  norm_num [Workout.className, Workout.duration, swm_demo_distance]

/-! ### Claim theorems -/

/-- Claim C1: `read_package` with a tag outside {"RUN", "WLK", "SWM"},
or with a value list containing a non-numeric value, fails with the
`ValueError` ("invalid input") before any variant is constructed; with
a recognized tag and an all-numeric list it never raises that error,
and any workout it returns is of the variant mapped to the tag
(SWM → Swimming, RUN → Running, WLK → SportsWalking). -/
theorem C1_dispatch_validation (tag : String) (data : List Value) :
    ((tag ∉ tagTable ∨ ¬data.all Value.isNumber = true) →
      read_package tag data =
        .error (.invalidInput "Полученый тип или данные неккоректны!")) ∧
    (tag ∈ tagTable → data.all Value.isNumber = true →
      (∀ msg, read_package tag data ≠ .error (.invalidInput msg)) ∧
      (∀ w, read_package tag data = .ok w →
        (tag = "SWM" → ∃ a d wt lp cp, w = .swimming a d wt lp cp) ∧
        (tag = "RUN" → ∃ a d wt, w = .running a d wt) ∧
        (tag = "WLK" → ∃ a d wt h, w = .sportsWalking a d wt h))) := by
  constructor
  · intro h
    simp only [read_package]
    rw [if_neg]
    intro hc
    rcases h with h | h
    · exact h hc.1
    · exact h hc.2
  · intro htag hall
    have heq : read_package tag data = construct tag (data.map Value.toNum) := by
      simp only [read_package]
      rw [if_pos ⟨htag, hall⟩]
    refine ⟨?_, ?_⟩
    · intro msg hcontra
      rw [heq] at hcontra
      exact construct_not_invalid tag _ msg hcontra
    · intro w hw
      rw [heq] at hw
      refine ⟨?_, ?_, ?_⟩ <;> intro htag' <;> subst htag'
      · exact construct_ok_swm _ _ hw
      · exact construct_ok_run _ _ hw
      · exact construct_ok_wlk _ _ hw

/-- Witness for C1 at the unknown tag "BIKE". -/
theorem C1_dispatch_validation_witness :
    read_package "BIKE" [Value.num 1] =
      .error (.invalidInput "Полученый тип или данные неккоректны!") :=
  (C1_dispatch_validation "BIKE" [Value.num 1]).1 (Or.inl (by decide))

/-- Claim C2 counterexample: at RUN [15000, 1, 75] the code computes
(18 × 9.75 − 20) × 75 / 1000 × 60 = 699.75 kcal, so the claimed value
722.25 is wrong. -/
theorem C2_running_counterexample :
    (Workout.running 15000 1 75).get_spent_calories = .ok 699.75 ∧
    (699.75 : ℚ) ≠ 722.25 := by
  exact ⟨run_demo_calories, by norm_num⟩

/-- Claim C2 (amended: the scenario's calorie value is 699.75, not
722.25): every Running workout with nonzero duration has
`get_spent_calories = (18 × speed − 20) × weight / 1000 ×
(duration × 60)`; at RUN [15000, 1, 75] the distance and mean speed are
9.75 and the calories 699.75; the formula is not clamped at zero and is
negative for low speeds. -/
theorem C2_running_calories :
    (∀ a d wt : ℚ, d ≠ 0 →
      ∃ v, (Workout.running a d wt).get_mean_speed = .ok v ∧
        (Workout.running a d wt).get_spent_calories =
          .ok ((18 * v - 20) * wt / 1000 * (d * 60))) ∧
    (Workout.running 15000 1 75).get_distance = 9.75 ∧
    (Workout.running 15000 1 75).get_mean_speed = .ok 9.75 ∧
    (Workout.running 15000 1 75).get_spent_calories = .ok 699.75 ∧
    ∃ c, (Workout.running 100 1 75).get_spent_calories = .ok c ∧ c < 0 := by
  refine ⟨?_, run_demo_distance, run_demo_speed, run_demo_calories, -84.735,
          run_slow_calories, by norm_num⟩
  intro a d wt hd
  refine ⟨a * 0.65 / 1000 / d, ?_, ?_⟩ <;>
    simp [Workout.get_spent_calories, Workout.get_mean_speed, qdiv, hd,
          Workout.get_distance, Workout.action, Workout.LEN_STEP,
          Workout.M_IN_KM, Workout.duration]

/-- Witness for C2's universally quantified part. -/
theorem C2_running_calories_witness :
    ∃ v, (Workout.running 15000 1 75).get_mean_speed = .ok v ∧
      (Workout.running 15000 1 75).get_spent_calories =
        .ok ((18 * v - 20) * 75 / 1000 * (1 * 60)) :=
  C2_running_calories.1 15000 1 75 one_ne_zero

/-- Claim C3: every SportsWalking workout with nonzero duration and
height has `get_spent_calories = (0.035 × weight + ⌊speed² / height⌋ ×
0.029 × weight) × (duration × 60)`, with floor division, not real
division; at WLK [9000, 1, 75, 180] distance and speed are 5.85 and
calories 157.5. -/
theorem C3_walking_calories :
    (∀ a d wt h : ℚ, d ≠ 0 → h ≠ 0 →
      ∃ v, (Workout.sportsWalking a d wt h).get_mean_speed = .ok v ∧
        (Workout.sportsWalking a d wt h).get_spent_calories =
          .ok ((0.035 * wt + (⌊v ^ 2 / h⌋ : ℚ) * 0.029 * wt) * (d * 60))) ∧
    (Workout.sportsWalking 9000 1 75 180).get_distance = 5.85 ∧
    (Workout.sportsWalking 9000 1 75 180).get_mean_speed = .ok 5.85 ∧
    (Workout.sportsWalking 9000 1 75 180).get_spent_calories = .ok 157.5 := by
  refine ⟨?_, wlk_demo_distance, wlk_demo_speed, wlk_demo_calories⟩
  intro a d wt h hd hh
  refine ⟨a * 0.65 / 1000 / d, ?_, ?_⟩ <;>
    simp [Workout.get_spent_calories, Workout.get_mean_speed, qdiv, qfloordiv,
          hd, hh, Workout.get_distance, Workout.action, Workout.LEN_STEP,
          Workout.M_IN_KM, Workout.duration]

/-- Witness for C3's universally quantified part. -/
theorem C3_walking_calories_witness :
    ∃ v, (Workout.sportsWalking 9000 1 75 180).get_mean_speed = .ok v ∧
      (Workout.sportsWalking 9000 1 75 180).get_spent_calories =
        .ok ((0.035 * 75 + (⌊v ^ 2 / 180⌋ : ℚ) * 0.029 * 75) * (1 * 60)) :=
  C3_walking_calories.1 9000 1 75 180 one_ne_zero (by norm_num)

/-- Claim C4: every Swimming workout with nonzero duration has
`get_mean_speed = length_pool × count_pool / 1000 / duration`,
`get_spent_calories = (speed + 1.1) × 2 × weight`, and the inherited
`get_distance = action × 1.38 / 1000`; at SWM [720, 1, 80, 25, 40]
distance is 0.9936, speed 1 and calories 336. -/
theorem C4_swimming_metrics :
    (∀ a d wt lp cp : ℚ, d ≠ 0 →
      (Workout.swimming a d wt lp cp).get_mean_speed =
        .ok (lp * cp / 1000 / d) ∧
      (Workout.swimming a d wt lp cp).get_spent_calories =
        .ok ((lp * cp / 1000 / d + 1.1) * 2 * wt) ∧
      (Workout.swimming a d wt lp cp).get_distance = a * 1.38 / 1000) ∧
    (Workout.swimming 720 1 80 25 40).get_distance = 0.9936 ∧
    (Workout.swimming 720 1 80 25 40).get_mean_speed = .ok 1 ∧
    (Workout.swimming 720 1 80 25 40).get_spent_calories = .ok 336 := by
  refine ⟨?_, swm_demo_distance, swm_demo_speed, swm_demo_calories⟩
  intro a d wt lp cp hd
  refine ⟨?_, ?_, ?_⟩ <;>
    simp [Workout.get_spent_calories, Workout.get_mean_speed, qdiv, hd,
          Workout.get_distance, Workout.action, Workout.LEN_STEP,
          Workout.M_IN_KM, Workout.duration]

/-- Witness for C4's universally quantified part. -/
theorem C4_swimming_metrics_witness :
    (Workout.swimming 720 1 80 25 40).get_mean_speed =
      .ok (25 * 40 / 1000 / 1) ∧
    (Workout.swimming 720 1 80 25 40).get_spent_calories =
      .ok ((25 * 40 / 1000 / 1 + 1.1) * 2 * 80) ∧
    (Workout.swimming 720 1 80 25 40).get_distance = 720 * 1.38 / 1000 :=
  C4_swimming_metrics.1 720 1 80 25 40 one_ne_zero

/-- Claim C5: Swimming's distance and speed come from independent
formulas: there is a valid Swimming input (the SWM demo package) on
which `get_distance / duration ≠ mean speed`. -/
theorem C5_swimming_divergence :
    ∃ a d wt lp cp v : ℚ, d ≠ 0 ∧
      (Workout.swimming a d wt lp cp).get_mean_speed = .ok v ∧
      (Workout.swimming a d wt lp cp).get_distance / d ≠ v := by
  refine ⟨720, 1, 80, 25, 40, 1, one_ne_zero, swm_demo_speed, ?_⟩
  rw [swm_demo_distance]
  norm_num

/-- Claim C6: with a recognized tag and an all-numeric list whose length
differs from the variant constructor's arity (3 for RUN, 4 for WLK, 5
for SWM), dispatch validation passes and the failure is the distinct
arity-mismatch error raised at construction, not the dispatcher's
invalid-input error; with a matching count the values are assigned
positionally to the variant's fields. -/
theorem C6_construction_arity (tag : String) (vals : List ℚ) :
    (tag ∈ tagTable → vals.length ≠ variantArity tag →
      read_package tag (vals.map Value.num) = .error .arityMismatch) ∧
    (∀ a d wt : ℚ, read_package "RUN" ([a, d, wt].map Value.num) =
      .ok (.running a d wt)) ∧
    (∀ a d wt h : ℚ, read_package "WLK" ([a, d, wt, h].map Value.num) =
      .ok (.sportsWalking a d wt h)) ∧
    (∀ a d wt lp cp : ℚ,
      read_package "SWM" ([a, d, wt, lp, cp].map Value.num) =
        .ok (.swimming a d wt lp cp)) := by
  refine ⟨?_, fun a d wt => rfl, fun a d wt h => rfl,
          fun a d wt lp cp => rfl⟩
  intro htag hlen
  rw [read_package_numeric tag vals htag]
  have h3 : variantArity "RUN" = 3 := rfl
  have h4 : variantArity "WLK" = 4 := rfl
  have h5 : variantArity "SWM" = 5 := rfl
  simp only [tagTable, List.mem_cons, List.not_mem_nil, or_false] at htag
  rcases htag with h | h | h <;> subst h
  · rw [h5] at hlen
    exact construct_swm_arity vals hlen
  · rw [h3] at hlen
    exact construct_run_arity vals hlen
  · rw [h4] at hlen
    exact construct_wlk_arity vals hlen

/-- Witness for C6: the RUN tag with an empty value list passes
validation and fails at construction with the arity error. -/
theorem C6_construction_arity_witness :
    read_package "RUN" (([] : List ℚ).map Value.num) =
      .error .arityMismatch :=
  (C6_construction_arity "RUN" []).1 (by decide) (by decide)

/-- Claim C7: invoking the base class's `get_spent_calories` directly
fails with the not-implemented error naming the kind ("Training"); and
every workout built by `read_package` is one of the three overriding
variants, so neither its `get_spent_calories` nor its
`show_training_info` ever raises that error. -/
theorem C7_base_not_implemented (a d wt : ℚ) :
    (Workout.base a d wt).get_spent_calories =
      .error (.notImplemented "Training") ∧
    (∀ tag data w, read_package tag data = .ok w →
      raisesNotImpl w.get_spent_calories = false ∧
      raisesNotImpl w.show_training_info = false) := by
  refine ⟨rfl, ?_⟩
  intro tag data w hw
  exact isVariant_no_notImpl w
    (construct_ok_isVariant tag (data.map Value.toNum) w
      (read_package_ok_construct tag data w hw))

/-- Witness for C7 at the RUN demo package. -/
theorem C7_base_not_implemented_witness :
    raisesNotImpl (Workout.running 15000 1 75).get_spent_calories = false ∧
    raisesNotImpl (Workout.running 15000 1 75).show_training_info = false :=
  (C7_base_not_implemented 0 0 0).2 "RUN"
    [Value.num 15000, Value.num 1, Value.num 75]
    (Workout.running 15000 1 75) rfl

/-- Claim C8: every successfully rendered summary is exactly the line
"Тип тренировки: <Kind>; Длительность: <t> ч.; Дистанция: <d> км;
Ср. скорость: <s> км/ч; Потрачено ккал: <c>." whose kind label is one
of the literals "Running", "SportsWalking", "Swimming", and every
numeric field is rendered by `format3` with exactly three digits after
the decimal point. -/
theorem C8_summary_message (w : Workout) (i : InfoMessage)
    (hok : w.show_training_info = .ok i) :
    i.get_message =
      "Тип тренировки: " ++ i.training_type ++ "; Длительность: " ++
        format3 i.duration ++ " ч.; Дистанция: " ++ format3 i.distance ++
        " км; Ср. скорость: " ++ format3 i.speed ++
        " км/ч; Потрачено ккал: " ++ format3 i.calories ++ "." ∧
    (i.training_type = "Running" ∨ i.training_type = "SportsWalking" ∨
      i.training_type = "Swimming") ∧
    (∀ x : ℚ, ∃ pre m, format3 x = pre ++ "." ++ digits3 m ∧
      (digits3 m).length = 3) := by
  refine ⟨rfl, ?_, fun x => ⟨_, _, rfl, rfl⟩⟩
  obtain ⟨t, dur, dist, sp, cal⟩ := i
  cases w with
  | base a d wt =>
      by_cases hd : d = 0 <;>
        simp [Workout.show_training_info, Workout.get_mean_speed,
              Workout.get_spent_calories, qdiv, hd, Workout.get_distance,
              Workout.duration] at hok
  | running a d wt =>
      by_cases hd : d = 0 <;>
        simp [Workout.show_training_info, Workout.get_mean_speed,
              Workout.get_spent_calories, qdiv, hd, Workout.get_distance,
              Workout.duration, Workout.className] at hok <;>
        simp_all
  | sportsWalking a d wt h =>
      by_cases hd : d = 0 <;> by_cases hh : h = 0 <;>
        simp [Workout.show_training_info, Workout.get_mean_speed,
              Workout.get_spent_calories, qdiv, qfloordiv, hd, hh,
              Workout.get_distance, Workout.duration,
              Workout.className] at hok <;>
        simp_all
  | swimming a d wt lp cp =>
      by_cases hd : d = 0 <;>
        simp [Workout.show_training_info, Workout.get_mean_speed,
              Workout.get_spent_calories, qdiv, hd, Workout.get_distance,
              Workout.duration, Workout.className] at hok <;>
        simp_all

/-- Witness for C8 at the SWM demo package. -/
theorem C8_summary_message_witness :
    (InfoMessage.mk "Swimming" 1 0.9936 1 336).training_type = "Running" ∨
    (InfoMessage.mk "Swimming" 1 0.9936 1 336).training_type =
      "SportsWalking" ∨
    (InfoMessage.mk "Swimming" 1 0.9936 1 336).training_type = "Swimming" :=
  (C8_summary_message (Workout.swimming 720 1 80 25 40)
    ⟨"Swimming", 1, 0.9936, 1, 336⟩ swm_demo_info).2.1

/-- Claim C9: for every workout, the distance is non-negative whenever
the action field is non-negative. -/
theorem C9_distance_nonneg (w : Workout) (h : 0 ≤ w.action) :
    0 ≤ w.get_distance := by
  cases w <;>
    (simp only [Workout.get_distance, Workout.action, Workout.LEN_STEP,
                Workout.M_IN_KM] at h ⊢
     exact div_nonneg (mul_nonneg h (by norm_num)) (by norm_num))

/-- Witness for C9 at the RUN demo package. -/
theorem C9_distance_nonneg_witness :
    0 ≤ (Workout.running 15000 1 75).get_distance :=
  C9_distance_nonneg _ (by norm_num [Workout.action])

/-- Claim C10 counterexample: `duration ≠ 0` alone does not make all
derived metrics total — a SportsWalking workout with duration 1 but
height 0 still fails with the division error, through the floor
division by `height` in its calorie formula. -/
theorem C10_duration_zero_counterexample :
    (Workout.sportsWalking 9000 1 75 0).duration ≠ 0 ∧
    (Workout.sportsWalking 9000 1 75 0).get_spent_calories =
      .error .divByZero := by
  constructor
  · norm_num [Workout.duration]
  · simp [Workout.get_spent_calories, Workout.get_mean_speed, qdiv,
          qfloordiv, Workout.get_distance, Workout.action,
          Workout.LEN_STEP, Workout.M_IN_KM, Workout.duration]

/-- Claim C10 (amended: for SportsWalking the precondition must also
include `height ≠ 0`): every variant's `get_mean_speed` divides by the
duration field with no guard, so with duration 0 the speed, calorie and
summary computations all fail with the division error; with duration
nonzero (and height nonzero for SportsWalking) all three succeed. -/
theorem C10_duration_guard (w : Workout) (hv : w.isVariant = true) :
    (w.duration = 0 →
      w.get_mean_speed = .error .divByZero ∧
      w.get_spent_calories = .error .divByZero ∧
      w.show_training_info = .error .divByZero) ∧
    (w.duration ≠ 0 → w.heightNonzero →
      isOk w.get_mean_speed = true ∧
      isOk w.get_spent_calories = true ∧
      isOk w.show_training_info = true) := by
  constructor
  · intro hd
    cases w with
    | base a d wt => simp [Workout.isVariant] at hv
    | running a d wt =>
        simp only [Workout.duration] at hd
        subst hd
        simp [Workout.get_mean_speed, Workout.get_spent_calories,
              Workout.show_training_info, qdiv, Workout.duration]
    | sportsWalking a d wt h =>
        simp only [Workout.duration] at hd
        subst hd
        simp [Workout.get_mean_speed, Workout.get_spent_calories,
              Workout.show_training_info, qdiv, Workout.duration]
    | swimming a d wt lp cp =>
        simp only [Workout.duration] at hd
        subst hd
        simp [Workout.get_mean_speed, Workout.get_spent_calories,
              Workout.show_training_info, qdiv, Workout.duration]
  · intro hd hh
    cases w with
    | base a d wt => simp [Workout.isVariant] at hv
    | running a d wt =>
        simp only [Workout.duration] at hd
        simp [Workout.get_mean_speed, Workout.get_spent_calories,
              Workout.show_training_info, qdiv, hd, isOk, Workout.duration]
    | sportsWalking a d wt h =>
        simp only [Workout.duration] at hd
        simp only [Workout.heightNonzero] at hh
        simp [Workout.get_mean_speed, Workout.get_spent_calories,
              Workout.show_training_info, qdiv, qfloordiv, hd, hh, isOk,
              Workout.duration]
    | swimming a d wt lp cp =>
        simp only [Workout.duration] at hd
        simp [Workout.get_mean_speed, Workout.get_spent_calories,
              Workout.show_training_info, qdiv, hd, isOk, Workout.duration]

/-- Witness for C10: a Running workout with duration 0 fails everywhere
with the division error. -/
theorem C10_duration_guard_witness :
    (Workout.running 15000 0 75).get_mean_speed = .error .divByZero ∧
    (Workout.running 15000 0 75).get_spent_calories = .error .divByZero ∧
    (Workout.running 15000 0 75).show_training_info = .error .divByZero :=
  (C10_duration_guard (Workout.running 15000 0 75) rfl).1 rfl

end Homework
